import Mathlib

/-!
Verification of the environment configuration record exported by
`frontend/src/environments/environment.ts`.

The source file binds a single literal record `environment` with six fields
(`production`, `apiServerUrl`, and the nested `auth0` sub-object with `url`,
`audience`, `clientId`, `callbackURL`).  An earlier variant of the same record
is present in the file as a commented-out block; it is embedded here as
`environmentCommented`.  The module performs no computation, reads no ambient
state and contains no mutating statement.
-/

/-- The nested `auth0` sub-object of the configuration record: four string
fields, mirroring lines 24-29 of the source. -/
structure Auth0Config where
  url : String
  audience : String
  clientId : String
  callbackURL : String
deriving DecidableEq, Repr

/-- The environment configuration record: a boolean `production` flag, a string
`apiServerUrl` and the nested `auth0` sub-object, mirroring lines 21-30 of the
source. -/
structure Environment where
  production : Bool
  apiServerUrl : String
  auth0 : Auth0Config
deriving DecidableEq, Repr

/-- The active exported record (source lines 21-30). -/
def environment : Environment :=
  { production := false
    apiServerUrl := "http://127.0.0.1:5000"
    auth0 :=
      { url := "dev-0occ77jb"
        audience := "coffee_shop"
        clientId := "bfK0CU5bv2J5GzzpkrWLWkfJOfmR6TdX"
        callbackURL := "http://localhost:8100" } }

/-- The commented-out earlier variant of the record (source lines 4-13). -/
def environmentCommented : Environment :=
  { production := false
    apiServerUrl := "http://127.0.0.1:5000"
    auth0 :=
      { url := "fsnd-joel"
        audience := "coffee_api"
        clientId := "Q3OOJUkbDk1guLXFPqFMtmuZVqm9EAPq"
        callbackURL := "http://localhost:8100" } }

/-- A value stored in one field of the configuration record: either a boolean
or a string, the only two field types occurring in the source. -/
inductive ConfigValue
  | boolVal (b : Bool)
  | strVal (s : String)
deriving DecidableEq, Repr

/-- The type tag of a field of the configuration record. -/
inductive FieldKind
  | boolField
  | stringField
deriving DecidableEq, Repr

/-- The kind of a stored value. -/
def ConfigValue.kind : ConfigValue → FieldKind
  | .boolVal _ => .boolField
  | .strVal _ => .stringField

/-- The flattened field listing of a configuration record, in source order,
with nested fields written with dotted paths.  This enumerates every field the
record exposes together with its value. -/
def Environment.fields (e : Environment) : List (String × ConfigValue) :=
  [("production", ConfigValue.boolVal e.production),
   ("apiServerUrl", ConfigValue.strVal e.apiServerUrl),
   ("auth0.url", ConfigValue.strVal e.auth0.url),
   ("auth0.audience", ConfigValue.strVal e.auth0.audience),
   ("auth0.clientId", ConfigValue.strVal e.auth0.clientId),
   ("auth0.callbackURL", ConfigValue.strVal e.auth0.callbackURL)]

/-- The shape of a configuration record: its field names each paired with the
type tag of the stored value. -/
def Environment.shape (e : Environment) : List (String × FieldKind) :=
  e.fields.map (fun p => (p.1, p.2.kind))

/-- A host component is valid when it is non-empty and made of ASCII letters,
digits, dots and hyphens. -/
def isHostChars (l : List Char) : Bool :=
  l.length > 0 && l.all (fun c => c.isAlphanum || c = '.' || c = '-')

/-- A port component is valid when it is a non-empty string of digits. -/
def isPortChars (l : List Char) : Bool :=
  l.length > 0 && l.all Char.isDigit

/-- A scheme is valid when it is a non-empty string of ASCII letters. -/
def isSchemeChars (l : List Char) : Bool :=
  l.length > 0 && l.all Char.isAlpha

/-- Split a character list at each occurrence of the separator character. -/
def splitOnChar (sep : Char) : List Char → List (List Char)
  | [] => [[]]
  | c :: cs =>
      match splitOnChar sep cs with
      | [] => [[]]
      | g :: gs => if c = sep then [] :: g :: gs else (c :: g) :: gs

/-- Split a character list at the first occurrence of the scheme separator
`://`, returning the part before it and the part after it. -/
def splitSchemeChars : List Char → Option (List Char × List Char)
  | ':' :: '/' :: '/' :: rest => some ([], rest)
  | c :: rest =>
      match splitSchemeChars rest with
      | some (pre, post) => some (c :: pre, post)
      | none => none
  | [] => none

/-- The natural number denoted by a list of decimal digits. -/
def digitsToNat (l : List Char) : Nat :=
  l.foldl (fun n c => 10 * n + (c.toNat - 48)) 0

/-- Parse an authority component `host` or `host:port`. -/
def parseHostPort (authority : List Char) : Option (String × Option Nat) :=
  match splitOnChar ':' authority with
  | [h] => if isHostChars h then some (String.mk h, none) else none
  | [h, p] =>
      if isHostChars h && isPortChars p then
        some (String.mk h, some (digitsToNat p))
      else none
  | _ => none

/-- Parse a URL of the standard form `scheme://host(:port)(/path)`, returning
the scheme, the host and the optional port. -/
def parseUrl (s : String) : Option (String × String × Option Nat) :=
  match splitSchemeChars s.toList with
  | none => none
  | some (sch, rest) =>
      if isSchemeChars sch then
        match parseHostPort (rest.takeWhile (fun c => c ≠ '/')) with
        | some (h, p) => some (String.mk sch, h, p)
        | none => none
      else none

/-- A string is a syntactically valid URL when it parses with a scheme, a host
and an optional port. -/
def isValidUrl (s : String) : Bool :=
  (parseUrl s).isSome

/-- The host component of a URL, when it parses. -/
def urlHost (s : String) : Option String :=
  (parseUrl s).map (fun t => t.2.1)

/-- The port component of a URL, when it parses and carries one. -/
def urlPort (s : String) : Option Nat :=
  (parseUrl s).bind (fun t => t.2.2)

/-- Modelled from the spec: the identity provider's expected public
client-identifier format — exactly 32 ASCII alphanumeric characters.  The
format itself belongs to the external identity provider and appears in the
repository only through the literal value on source line 27. -/
def isAuth0ClientIdFormat (s : String) : Bool :=
  s.length = 32 && s.toList.all Char.isAlphanum

/-- The mutating statements of the module, in program order.  The source file
contains a single `const` binding of a literal record and no assignment to the
record or to any of its fields, so this list is empty. -/
def moduleMutations : List (Environment → Environment) :=
  []

/-- The state of the record after the first `t` statements of the module have
run, starting from the value bound at construction. -/
def environmentAfter (ops : List (Environment → Environment)) : Environment :=
  ops.foldl (fun e f => f e) environment

/-- Evaluation of the module as a function of the ambient state (modelled as a
finite map of named strings).  The source binds a literal record and reads
nothing from its surroundings, so the ambient state is unused. -/
def evalEnvironmentModule (ambient : List (String × String)) : Environment :=
  let _ := ambient
  { production := false
    apiServerUrl := "http://127.0.0.1:5000"
    auth0 :=
      { url := "dev-0occ77jb"
        audience := "coffee_shop"
        clientId := "bfK0CU5bv2J5GzzpkrWLWkfJOfmR6TdX"
        callbackURL := "http://localhost:8100" } }

/-- C1: the exported environment record exposes exactly the six documented
fields and no others — `production`, `apiServerUrl`, `auth0.url`,
`auth0.audience`, `auth0.clientId`, `auth0.callbackURL` — where `production`
holds a boolean value and each of the other five holds a string value, and
every environment record is fully determined by these six fields. -/
theorem environment_exposes_exactly_six_fields :
    environment.fields.map Prod.fst
      = ["production", "apiServerUrl", "auth0.url", "auth0.audience",
         "auth0.clientId", "auth0.callbackURL"]
    ∧ (∃ b : Bool,
        environment.fields.lookup "production" = some (ConfigValue.boolVal b))
    ∧ (∃ s : String,
        environment.fields.lookup "apiServerUrl" = some (ConfigValue.strVal s))
    ∧ (∃ s : String,
        environment.fields.lookup "auth0.url" = some (ConfigValue.strVal s))
    ∧ (∃ s : String,
        environment.fields.lookup "auth0.audience"
          = some (ConfigValue.strVal s))
    ∧ (∃ s : String,
        environment.fields.lookup "auth0.clientId"
          = some (ConfigValue.strVal s))
    ∧ (∃ s : String,
        environment.fields.lookup "auth0.callbackURL"
          = some (ConfigValue.strVal s))
    ∧ (∀ e : Environment,
        e = Environment.mk e.production e.apiServerUrl
              (Auth0Config.mk e.auth0.url e.auth0.audience e.auth0.clientId
                e.auth0.callbackURL)) :=
  ⟨rfl, ⟨false, rfl⟩, ⟨_, rfl⟩, ⟨_, rfl⟩, ⟨_, rfl⟩, ⟨_, rfl⟩, ⟨_, rfl⟩,
   fun _ => rfl⟩

/-- C2: the record is constructed once and the module contains no mutating
statement, so after any number of the module's statements have run every field
read returns the value it had at construction. -/
theorem environment_immutable_after_load :
    moduleMutations = []
    ∧ ∀ t : Nat, environmentAfter (moduleMutations.take t) = environment := by
  refine ⟨rfl, fun t => ?_⟩
  cases t <;> rfl

/-- C3: `environment.apiServerUrl` and `environment.auth0.callbackURL` are
both syntactically valid URLs — each parses with a scheme, a host and an
optional port. -/
theorem apiServerUrl_and_callbackURL_are_valid_urls :
    isValidUrl environment.apiServerUrl = true
    ∧ isValidUrl environment.auth0.callbackURL = true := by
  constructor <;> decide

/-- C4: `environment.auth0.clientId` is a non-empty string and it matches the
identity provider's expected client-identifier format (32 ASCII alphanumeric
characters). -/
theorem clientId_nonempty_and_wellformed :
    environment.auth0.clientId.length > 0
    ∧ isAuth0ClientIdFormat environment.auth0.clientId = true := by
  constructor <;> decide

/-- C5: every environment record has the identical shape (same field names,
nesting and type tags); in particular the commented-out earlier variant and
the active exported record have exactly the same shape, and they differ only
in the literal values of the three `auth0` identifier fields. -/
theorem variants_share_shape :
    (∀ e1 e2 : Environment, e1.shape = e2.shape)
    ∧ environmentCommented.shape = environment.shape
    ∧ environmentCommented.production = environment.production
    ∧ environmentCommented.apiServerUrl = environment.apiServerUrl
    ∧ environmentCommented.auth0.callbackURL = environment.auth0.callbackURL
    ∧ environmentCommented.auth0.url ≠ environment.auth0.url
    ∧ environmentCommented.auth0.audience ≠ environment.auth0.audience
    ∧ environmentCommented.auth0.clientId ≠ environment.auth0.clientId := by
  refine ⟨fun e1 e2 => rfl, rfl, rfl, rfl, rfl, ?_, ?_, ?_⟩ <;> decide

/-- C6: evaluating the module is pure and deterministic — it binds a literal
record and reads no ambient state, so any two evaluations yield records equal
field by field, both equal to the exported record. -/
theorem module_evaluation_pure_deterministic :
    ∀ a1 a2 : List (String × String),
      evalEnvironmentModule a1 = evalEnvironmentModule a2
      ∧ evalEnvironmentModule a1 = environment
      ∧ (evalEnvironmentModule a1).production
          = (evalEnvironmentModule a2).production
      ∧ (evalEnvironmentModule a1).apiServerUrl
          = (evalEnvironmentModule a2).apiServerUrl
      ∧ (evalEnvironmentModule a1).auth0.url
          = (evalEnvironmentModule a2).auth0.url
      ∧ (evalEnvironmentModule a1).auth0.audience
          = (evalEnvironmentModule a2).auth0.audience
      ∧ (evalEnvironmentModule a1).auth0.clientId
          = (evalEnvironmentModule a2).auth0.clientId
      ∧ (evalEnvironmentModule a1).auth0.callbackURL
          = (evalEnvironmentModule a2).auth0.callbackURL :=
  fun _ _ => ⟨rfl, rfl, rfl, rfl, rfl, rfl, rfl, rfl⟩

/-- C7: the exported record is the development variant — `production` is
`false`, `apiServerUrl` points at host `127.0.0.1` on port `5000`, and
`auth0.callbackURL` points at host `localhost` on port `8100`. -/
theorem exported_record_is_development_variant :
    environment.production = false
    ∧ urlHost environment.apiServerUrl = some "127.0.0.1"
    ∧ urlPort environment.apiServerUrl = some 5000
    ∧ urlHost environment.auth0.callbackURL = some "localhost"
    ∧ urlPort environment.auth0.callbackURL = some 8100 := by
  refine ⟨rfl, ?_, ?_, ?_, ?_⟩ <;> decide

/-- C8: `environment.auth0.url` is not a URL — its value is the bare tenant
identifier `dev-0occ77jb`, which fails URL parsing and contains no scheme
separator, no dot and no path separator. -/
theorem auth0_url_not_a_url :
    environment.auth0.url = "dev-0occ77jb"
    ∧ isValidUrl environment.auth0.url = false
    ∧ splitSchemeChars environment.auth0.url.toList = none
    ∧ environment.auth0.url.toList.all (fun c => c ≠ '.') = true
    ∧ environment.auth0.url.toList.all (fun c => c ≠ '/') = true := by
  refine ⟨rfl, ?_, ?_, ?_, ?_⟩ <;> decide

/-- C9: every string field of the record is a non-empty literal, and
`environment.auth0.clientId` consists of exactly 32 ASCII alphanumeric
characters. -/
theorem string_fields_nonempty_clientId_format :
    environment.apiServerUrl.length > 0
    ∧ environment.auth0.url.length > 0
    ∧ environment.auth0.audience.length > 0
    ∧ environment.auth0.clientId.length > 0
    ∧ environment.auth0.callbackURL.length > 0
    ∧ environment.auth0.clientId.length = 32
    ∧ environment.auth0.clientId.toList.all Char.isAlphanum = true := by
  refine ⟨?_, ?_, ?_, ?_, ?_, ?_, ?_⟩ <;> decide
